import Mathlib

/-!
Shallow embedding of `src/tree_time/gtr.py`, the GTR substitution model of
treetime.  Machine floats are modelled by exact rationals.  The external
numerical facilities the spec lists as collaborators (numpy's `exp`/`log`,
`np.linalg.eig` with `np.linalg.inv`, `np.random`, and
`scipy.optimize.minimize_scalar`) are passed in as explicit data, so every
definition stays executable.
-/

/-- Python exceptions raised (or raisable) by the module: `attributeError`
by `GTR.__init__` on an unknown alphabet, `notImplementedError` by
`GTR.standard` on an unknown model name, `valueError` by `GTR.prob_t` on a
site-count mismatch, `arithmeticError` by `GTR._check_fix_Q` when the
repair fails, `nameError` when code reads an undefined global name, and
`unboundLocalError` when it reads a local variable before assignment. -/
inductive PyError where
  | attributeError (msg : String)
  | notImplementedError (msg : String)
  | valueError (msg : String)
  | arithmeticError (msg : String)
  | nameError (missing : String)
  | unboundLocalError (missing : String)
  deriving DecidableEq, Repr

/-- Modelled from the spec: the alphabet registry of the external
`seq_utils` module (not under src/) maps an alphabet identifier to its
ordered symbol set; only its size matters here, and the spec's example
alphabet is the four nucleotides.  `none` for an unrecognized identifier. -/
def alphabets : String → Option ℕ := fun s => if s = "nuc" then some 4 else none

/-- Modelled from the spec: the external `config` module (`ttconf`, not
under src/) supplies the configured maximum branch length of the optimizer
search interval and the additive floor that avoids log 0. -/
structure Config where
  MAX_BRANCH_LENGTH : ℚ
  TINY_NUMBER : ℚ
  deriving DecidableEq, Repr

/-- Modelled from the spec: numpy's elementary transcendental functions
(`np.exp`, `np.log`) belong to the external numerical facility; theorems
assume of them only facts true of the real functions, such as exp 0 = 1. -/
structure Numerics where
  exp : ℚ → ℚ
  log : ℚ → ℚ

/-- State of a `GTR` model object: the fields set by `GTR.__init__`
(gtr.py lines 9-35) and mutated only during construction.  The alphabet is
represented by its size `a`; `dm` is the lazily-set distance matrix. -/
structure GTR (a : ℕ) where
  alphabet_type : String
  W : Matrix (Fin a) (Fin a) ℚ
  Pi : Matrix (Fin a) (Fin a) ℚ
  mu : ℚ
  v : Matrix (Fin a) (Fin a) ℚ
  v_inv : Matrix (Fin a) (Fin a) ℚ
  eigenmat : Fin a → ℚ
  dm : Option (Matrix (Fin a) (Fin a) ℚ)
  deriving DecidableEq

/-- Fresh model made by `GTR.__init__` after a successful alphabet lookup:
all matrices zero, `mu = 1`, no distance matrix. -/
def emptyGTR (a : ℕ) (alphabet_type : String) : GTR a :=
  { alphabet_type := alphabet_type, W := 0, Pi := 0, mu := 1,
    v := 0, v_inv := 0, eigenmat := fun _ => 0, dm := none }

/-- `GTR.__init__(alphabet_type)` (gtr.py lines 9-35): an unknown alphabet
identifier raises `AttributeError` (the spec's `ConfigurationError`) and no
model is created; otherwise the empty model over that alphabet results. -/
def GTR.init (alphabet_type : String) : Except PyError ((a : ℕ) × GTR a) :=
  match alphabets alphabet_type with
  | none => Except.error (PyError.attributeError "Unknown alphabet type specified")
  | some a => Except.ok ⟨a, emptyGTR a alphabet_type⟩

/-- Column sums of a square matrix: numpy's `Q.sum(0)`. -/
def colSum {a : ℕ} (Q : Matrix (Fin a) (Fin a) ℚ) (j : Fin a) : ℚ := ∑ i, Q i j

/-- The tolerance 1e-10 used by `_check_fix_Q`. -/
def qTol : ℚ := 1 / 10 ^ 10

/-- `GTR._check_fix_Q` (gtr.py lines 86-102).  Note that the source tests
`Q.sum(0) < 1e-10` one-sidedly (no absolute value), so a column whose sum
is far below zero passes the gate.  The repair renormalizes `Pi` by the sum
of all its entries, zeroes the diagonal of `W`, and refills it with
`-(sum_i W[i,j] * Pi[i,i]) / Pi[j,j]`; if the recomputed `Q` still fails
the (one-sided) gate, `ArithmeticError` is raised. -/
def GTR.check_fix_Q {a : ℕ} (gtr : GTR a) : Except PyError (GTR a) :=
  let Q := gtr.Pi * gtr.W
  if (Finset.univ.filter fun j => colSum Q j < qTol).card < a then
    let piSum := ∑ i, ∑ j, gtr.Pi i j
    let Pi1 : Matrix (Fin a) (Fin a) ℚ := fun i j => gtr.Pi i j / piSum
    let W0 : Matrix (Fin a) (Fin a) ℚ := fun i j => if i = j then 0 else gtr.W i j
    let Wdiag : Fin a → ℚ := fun j => -(∑ i, W0 i j * Pi1 i i) / Pi1 j j
    let W1 : Matrix (Fin a) (Fin a) ℚ := fun i j => if i = j then Wdiag i else W0 i j
    let Q1 := Pi1 * W1
    if (Finset.univ.filter fun j => colSum Q1 j < qTol).card < a then
      Except.error (PyError.arithmeticError "Cannot fix the diagonal of the GTR rate matrix.")
    else
      Except.ok { gtr with Pi := Pi1, W := W1 }
  else
    Except.ok gtr

/-- Output of the external eigensolver used by `GTR._eig` (gtr.py lines
104-113): `np.linalg.eig(Pi.dot(W))` returns `eigvals, eigvecs`, and
`np.linalg.inv(eigvecs)` returns `vinv` with contract `eigvecs * vinv = 1`. -/
structure EigOutput (a : ℕ) where
  eigvals : Fin a → ℚ
  eigvecs : Matrix (Fin a) (Fin a) ℚ
  vinv : Matrix (Fin a) (Fin a) ℚ

/-- `GTR._eig`: store the eigensolver's output in the model. -/
def GTR.eig {a : ℕ} (gtr : GTR a) (eo : EigOutput a) : GTR a :=
  { gtr with v := eo.eigvecs, v_inv := eo.vinv, eigenmat := eo.eigvals }

/-- Contract of `np.linalg.inv` inside `_eig`: the stored `v_inv` is a
right inverse of `v`.  Theorems about constructed models assume it. -/
def GTR.EigOk {a : ℕ} (gtr : GTR a) : Prop := gtr.v * gtr.v_inv = 1

/-- The Jukes-Cantor exchangeability matrix built at gtr.py lines 56-57:
`W = np.ones((a,a)); np.fill_diagonal(W, -(W.sum(0) - 1))`, the diagonal
entry coming from the all-ones column sum. -/
def jcW (a : ℕ) : Matrix (Fin a) (Fin a) ℚ :=
  let onesW : Matrix (Fin a) (Fin a) ℚ := fun _ _ => 1
  fun i j => if i = j then -((∑ k, onesW k j) - 1) else onesW i j

/-- The Jukes-Cantor equilibrium matrix built at gtr.py lines 60-61:
zeros with `1/a` on the diagonal. -/
def jcPi (a : ℕ) : Matrix (Fin a) (Fin a) ℚ :=
  fun i j => if i = j then 1 / (a : ℚ) else 0

/-- The keyword arguments of `GTR.standard`: the optional alphabet
identifier and the optional rate multiplier mu. -/
structure Kwargs where
  alphabet : Option String
  mu : Option ℚ

/-- Modelled from the spec: the draws of `np.random.randint(0, 100, ...)`
consumed by the `random` preset (the external RNG), as exact rationals. -/
structure RandomDraws where
  pi : Fin 4 → ℚ
  w : Matrix (Fin 4) (Fin 4) ℚ

/-- The model filled in by the Jukes-Cantor branch of `GTR.standard`
(gtr.py lines 49-61) before validation and eigendecomposition. -/
def jcBase (mu : ℚ) : GTR 4 :=
  { emptyGTR 4 "nuc" with mu := mu, W := jcW 4, Pi := jcPi 4 }

/-- Equilibrium matrix of the `random` branch (gtr.py lines 73-75): the
positive draws normalized to sum 1, placed on the diagonal. -/
def randPi (rnd : RandomDraws) : Matrix (Fin 4) (Fin 4) ℚ :=
  fun i j => if i = j then rnd.pi i / ∑ k, rnd.pi k else 0

/-- Exchangeability matrix of the `random` branch (gtr.py lines 77-78):
the draw symmetrized as `W + W.T`. -/
def randW (rnd : RandomDraws) : Matrix (Fin 4) (Fin 4) ℚ :=
  fun i j => rnd.w i j + rnd.w j i

/-- The model filled in by the `random` branch of `GTR.standard` (gtr.py
lines 67-78) before validation. -/
def randBase (mu : ℚ) (rnd : RandomDraws) : GTR 4 :=
  { emptyGTR 4 "nuc" with mu := mu, Pi := randPi rnd, W := randW rnd }

/-- `GTR.standard` (gtr.py lines 37-84).  Line 39 evaluates
`'alphabet' in kwargs and alphabet in alphabets.keys()`: the local name
`alphabet` is read before its first assignment, so any call supplying the
alphabet option raises `UnboundLocalError` at once; otherwise the default
identifier `'nuc'` is used (after a printed notice).  `rnd` and `eo` stand
for the external facilities consumed by the `random` branch and `_eig`.
An unknown model name raises `NotImplementedError` (the spec's
`ConfigurationError`). -/
def GTR.standard (model : String) (kwargs : Kwargs) (rnd : RandomDraws)
    (eo : EigOutput 4) : Except PyError (GTR 4) :=
  if kwargs.alphabet.isSome then
    Except.error (PyError.unboundLocalError "alphabet")
  else if model = "Jukes-Cantor" then
    match (jcBase (kwargs.mu.getD 1)).check_fix_Q with
    | Except.error e => Except.error e
    | Except.ok gtr => Except.ok (gtr.eig eo)
  else if model = "random" then
    match (randBase (kwargs.mu.getD 1) rnd).check_fix_Q with
    | Except.error e => Except.error e
    | Except.ok gtr => Except.ok (gtr.eig eo)
  else
    Except.error
      (PyError.notImplementedError "The specified evolutionary model is unsupported!")

/-- `GTR._exp_lt` (gtr.py lines 228-233): the vector of decay factors
exp(mu * t * eigenvalue_i), with numpy's exp supplied by `nm`. -/
def GTR.exp_lt {a : ℕ} (gtr : GTR a) (nm : Numerics) (t : ℚ) : Fin a → ℚ :=
  fun i => nm.exp (gtr.mu * t * gtr.eigenmat i)

/-- `GTR.prob_t` (gtr.py lines 115-158).  With `t < 0` the log branch
evaluates `-BIG_NUMBER` where `BIG_NUMBER` is an undefined name (the module
imports `config as ttconf` only), raising `NameError`; the plain branch
returns 0.  The site-count check follows; then rotation into eigenspace
(`profile_p.dot(v)` row-wise is `Matrix.vecMul`, `v_inv.dot(ch.T).T`
row-wise is `Matrix.mulVec`), the per-site sums over eigencomponents, the
clamp of negative per-site values to 0, and the aggregation: product over
sites, or sum of logs with the `TINY_NUMBER` floor.  The method reads the
model's fields and writes none of them. -/
def GTR.prob_t {a : ℕ} (gtr : GTR a) (nm : Numerics) (cfg : Config)
    (profile_p profile_ch : List (Fin a → ℚ)) (t : ℚ)
    (rotated return_log : Bool) : Except PyError ℚ :=
  if t < 0 then
    if return_log then Except.error (PyError.nameError "BIG_NUMBER")
    else Except.ok 0
  else if profile_p.length ≠ profile_ch.length then
    Except.error (PyError.valueError "Sequence lengths do not match!")
  else
    let eLambdaT := gtr.exp_lt nm t
    let p1 := if rotated then profile_p
      else profile_p.map fun r => Matrix.vecMul r gtr.v
    let p2 := if rotated then profile_ch
      else profile_ch.map fun r => Matrix.mulVec gtr.v_inv r
    let prob := (p1.zip p2).map fun rc => ∑ i, rc.1 i * eLambdaT i * rc.2 i
    let prob := prob.map fun x => if x < 0 then 0 else x
    if return_log then
      Except.ok (prob.map fun x => nm.log (x + cfg.TINY_NUMBER)).sum
    else
      Except.ok prob.prod

/-- The inner `_neg_prob` of `optimal_t` (gtr.py lines 165-180): minus the
log-probability of the two profiles at separation t; this is the objective
handed to the external minimizer. -/
def GTR.neg_prob {a : ℕ} (gtr : GTR a) (nm : Numerics) (cfg : Config)
    (t : ℚ) (parent child : List (Fin a → ℚ)) : Except PyError ℚ :=
  (gtr.prob_t nm cfg parent child t false true).map fun x => -1 * x

/-- Result reported by the external bounded scalar minimizer
`scipy.optimize.minimize_scalar(..., bounds=[0, MAX_BRANCH_LENGTH],
method='Bounded')`: the argmin `x` and the convergence flag `success`. -/
structure OptResult where
  x : ℚ
  success : Bool
  deriving DecidableEq, Repr

/-- `GTR.optimal_t` (gtr.py lines 160-195) after the external minimizer
returns `opt`.  On the failure branch (`new_len > .9 * MAX_BRANCH_LENGTH`
or `opt["success"] != True`) the source first evaluates `verbose > 0`
where `verbose` is an undefined global, raising `NameError`; the
`import ipdb; ipdb.set_trace()` and `return -1.0` lines below it are
unreachable.  On the success branch the argmin is returned. -/
def GTR.optimal_t {a : ℕ} (gtr : GTR a) (cfg : Config)
    (profile_p profile_ch : List (Fin a → ℚ)) (opt : OptResult) :
    Except PyError ℚ :=
  let new_len := opt.x
  if new_len > 9 / 10 * cfg.MAX_BRANCH_LENGTH ∨ opt.success = false then
    Except.error (PyError.nameError "verbose")
  else
    Except.ok new_len

/-- `GTR.propagate_profile` (gtr.py lines 197-226): rotate the profile into
eigenspace (unless already rotated), scale componentwise by the decay
factors, rotate back with `v`; optionally return the elementwise log.  No
clamping is applied here. -/
def GTR.propagate_profile {a : ℕ} (gtr : GTR a) (nm : Numerics)
    (profile : List (Fin a → ℚ)) (t : ℚ) (rotated return_log : Bool) :
    List (Fin a → ℚ) :=
  let eLambdaT := gtr.exp_lt nm t
  let p := if rotated then profile
    else profile.map fun r => Matrix.mulVec gtr.v_inv r
  let res := p.map fun r => Matrix.mulVec gtr.v fun j => eLambdaT j * r j
  if return_log then res.map (fun r i => nm.log (r i)) else res

/-- A profile row is one-hot when a single symbol carries probability 1. -/
def OneHot {a : ℕ} (r : Fin a → ℚ) : Prop :=
  ∃ i, r i = 1 ∧ ∀ j, j ≠ i → r j = 0

/-- Witness instance for numpy's transcendental functions: a degree-1
Taylor truncation for exp (which satisfies exp 0 = 1, the only fact the
theorems assume) and the zero function for log (never reached in the
evaluated branches). -/
def nmOne : Numerics := { exp := fun q => 1 + q, log := fun _ => 0 }

/-- Modelled from the spec: concrete values of the external config module's
constants (maximum branch length 1.5 and log floor 1e-12), used only to
instantiate closed evaluations. -/
def cfg0 : Config := { MAX_BRANCH_LENGTH := 3 / 2, TINY_NUMBER := 1 / 10 ^ 12 }

/-- Zero draws for the external RNG (unused by the Jukes-Cantor branch). -/
def rndZero : RandomDraws := { pi := fun _ => 0, w := 0 }

/-- The 4-by-4 Hadamard matrix, entry (i,j) being (-1) to the power of the
GF(2) inner product of the bit representations of i and j.  Its columns are
an exact rational eigenbasis of the Jukes-Cantor rate matrix
`jcPi 4 * jcW 4 = (J - 4*I)/4`: column 0 (all ones) has eigenvalue 0, the
others eigenvalue -1; and `hadamard4 * hadamard4 = 4 * 1`. -/
def hadamard4 : Matrix (Fin 4) (Fin 4) ℚ :=
  fun i j => (-1 : ℚ) ^ (i.val % 2 * (j.val % 2) + i.val / 2 * (j.val / 2))

/-- A concrete exact output of the external eigensolver on the Jukes-Cantor
rate matrix: eigenvalues (0,-1,-1,-1), eigenvectors `hadamard4`, and its
inverse `hadamard4 / 4`. -/
def jcEig : EigOutput 4 :=
  { eigvals := ![0, -1, -1, -1], eigvecs := hadamard4,
    vinv := fun i j => hadamard4 i j / 4 }

/-- The Jukes-Cantor model as constructed by `GTR.standard` with no options
and the eigensolver output `jcEig`. -/
def jcModel : GTR 4 := (jcBase 1).eig jcEig

/-- The uniform profile row: probability 1/4 for each of the 4 symbols. -/
def uniformRow : Fin 4 → ℚ := fun _ => 1 / 4

/-- A one-hot profile row: symbol 0 observed with certainty. -/
def oneHotRow : Fin 4 → ℚ := fun j => if j = 0 then 1 else 0

/-- A user-supplied exchangeability matrix (spec lifecycle: "or by direct
field assignment"): minus the identity, making every column sum of
`Pi * W` strictly negative. -/
def badW : Matrix (Fin 4) (Fin 4) ℚ := fun i j => if i = j then -1 else 0

/-- A directly assembled model with equilibrium `jcPi 4` and
exchangeability `badW`: its generator `Q = Pi * W` has all column sums
equal to -1/4. -/
def badQModel : GTR 4 := { emptyGTR 4 "nuc" with W := badW, Pi := jcPi 4 }

lemma fin4_val_zero : ((0 : Fin 4) : ℕ) = 0 := rfl

lemma fin4_val_one : ((1 : Fin 4) : ℕ) = 1 := rfl

lemma fin4_val_two : ((2 : Fin 4) : ℕ) = 2 := rfl

lemma fin4_val_three : ((3 : Fin 4) : ℕ) = 3 := rfl

lemma jcW_apply (a : ℕ) (i j : Fin a) :
    jcW a i j = if i = j then -((a : ℚ) - 1) else 1 := by
  simp [jcW, Finset.sum_const, Finset.card_univ]

lemma jcPi_eq_diagonal (a : ℕ) :
    jcPi a = Matrix.diagonal (fun _ => 1 / (a : ℚ)) := rfl

lemma jc_colSum (a : ℕ) (j : Fin a) : colSum (jcPi a * jcW a) j = 0 := by
  unfold colSum
  have h1 : ∀ i : Fin a, (jcPi a * jcW a) i j = 1 / (a : ℚ) * jcW a i j := by
    intro i
    rw [Matrix.mul_apply]
    simp [jcPi, ite_mul, zero_mul, Finset.sum_ite_eq]
  rw [Finset.sum_congr rfl fun i _ => h1 i]
  rw [← Finset.mul_sum]
  have h2 : ∑ i, jcW a i j = ∑ i : Fin a, ((if i = j then -(a : ℚ) else 0) + 1) := by
    refine Finset.sum_congr rfl fun i _ => ?_
    rw [jcW_apply]
    by_cases h : i = j <;> simp [h] <;> ring
  rw [h2, Finset.sum_add_distrib, Finset.sum_ite_eq' Finset.univ j fun _ => -(a : ℚ)]
  simp

lemma check_fix_Q_pass {a : ℕ} (gtr : GTR a)
    (h : ∀ j, colSum (gtr.Pi * gtr.W) j < qTol) :
    gtr.check_fix_Q = Except.ok gtr := by
  unfold GTR.check_fix_Q
  have hfil : (Finset.univ.filter fun j => colSum (gtr.Pi * gtr.W) j < qTol)
      = Finset.univ := Finset.filter_true_of_mem fun j _ => h j
  simp only [hfil, Finset.card_univ, Fintype.card_fin, lt_self_iff_false, if_false]

lemma jc_check_pass (mu : ℚ) : (jcBase mu).check_fix_Q = Except.ok (jcBase mu) := by
  apply check_fix_Q_pass
  intro j
  show colSum (jcPi 4 * jcW 4) j < qTol
  rw [jc_colSum]; norm_num [qTol]

lemma standard_jc (kwargs : Kwargs) (h : kwargs.alphabet = none)
    (rnd : RandomDraws) (eo : EigOutput 4) :
    GTR.standard "Jukes-Cantor" kwargs rnd eo
      = Except.ok ((jcBase (kwargs.mu.getD 1)).eig eo) := by
  unfold GTR.standard
  rw [h, jc_check_pass]
  rfl

lemma dot_rotations {a : ℕ} (v vinv : Matrix (Fin a) (Fin a) ℚ)
    (hv : v * vinv = 1) (r : Fin a → ℚ) :
    ∑ i, Matrix.vecMul r v i * Matrix.mulVec vinv r i = ∑ j, r j * r j := by
  have h0 : (∑ i, Matrix.vecMul r v i * Matrix.mulVec vinv r i)
      = Matrix.dotProduct (Matrix.vecMul r v) (Matrix.mulVec vinv r) := rfl
  rw [h0, ← Matrix.dotProduct_mulVec, Matrix.mulVec_mulVec, hv, Matrix.one_mulVec]
  rfl

lemma OneHot.sum_sq {a : ℕ} {r : Fin a → ℚ} (h : OneHot r) :
    ∑ j, r j * r j = 1 := by
  obtain ⟨i, h1, h0⟩ := h
  rw [Finset.sum_eq_single i]
  · rw [h1]; norm_num
  · intro j _ hj; rw [h0 j hj]; ring
  · intro hi; exact absurd (Finset.mem_univ i) hi

lemma jcModel_EigOk : jcModel.EigOk := by
  show hadamard4 * jcEig.vinv = 1
  ext i j
  rw [Matrix.mul_apply]
  fin_cases i <;> fin_cases j <;>
    norm_num [hadamard4, jcEig, Fin.sum_univ_four, Matrix.one_apply, Fin.ext_iff,
      fin4_val_zero, fin4_val_one, fin4_val_two, fin4_val_three]

lemma oneHotRow_oneHot : OneHot oneHotRow :=
  ⟨0, by norm_num [oneHotRow], fun j hj => by simp [oneHotRow, hj]⟩

lemma badQ_entry (i j : Fin 4) :
    (jcPi 4 * badW) i j = if i = j then -(1 / 4 : ℚ) else 0 := by
  rw [Matrix.mul_apply]
  simp only [jcPi, badW, ite_mul, zero_mul, Finset.sum_ite_eq, Finset.mem_univ, if_true]
  by_cases h : i = j <;> simp [h]

lemma badQ_colSum (j : Fin 4) : colSum (badQModel.Pi * badQModel.W) j = -(1 / 4) := by
  show colSum (jcPi 4 * badW) j = -(1 / 4)
  unfold colSum
  rw [Finset.sum_congr rfl fun i _ => badQ_entry i j]
  rw [Finset.sum_ite_eq' Finset.univ j fun _ => -(1 / 4 : ℚ)]
  simp

/-- C1: the claim says every constructed model's `Q = Pi * W` has all
column sums within 1e-10 of zero after validation/repair, or construction
fails.  The code's gate at gtr.py line 91 tests `Q.sum(0) < 1e-10`
one-sidedly: the directly assembled model `badQModel`, whose column sums
all equal -1/4, passes `_check_fix_Q` unchanged (no repair, no error)
although each column sum is 2.5e9 times the tolerance away from zero. -/
theorem C1_one_sided_gate_accepts_invalid_generator :
    badQModel.check_fix_Q = Except.ok badQModel ∧
    (∀ j, colSum (badQModel.Pi * badQModel.W) j = -(1 / 4)) ∧
    qTol ≤ |(-(1 / 4) : ℚ)| := by
  have habs : |(-(1 / 4) : ℚ)| = 1 / 4 := by
    rw [abs_neg]
    exact abs_of_pos (by norm_num)
  refine ⟨?_, badQ_colSum, by rw [habs]; norm_num [qTol]⟩
  apply check_fix_Q_pass
  intro j
  rw [badQ_colSum]
  norm_num [qTol]

/-- C2 (amended): `prob_t(p, p, 0)` with default flags returns exactly 1
for every profile whose rows are one-hot, for every model whose stored
eigenvector matrix times its stored inverse is the identity (the
eigensolver contract) and any exponential with exp 0 = 1.  (For general
distribution rows the value is the product of the rows' sums of squares;
see the counterexample.) -/
theorem C2_prob_t_self_zero_one_hot {a : ℕ} (gtr : GTR a) (nm : Numerics)
    (cfg : Config) (p : List (Fin a → ℚ)) (hexp : nm.exp 0 = 1)
    (hv : gtr.EigOk) (hp : ∀ r ∈ p, OneHot r) :
    gtr.prob_t nm cfg p p 0 false false = Except.ok 1 := by
  have hE : gtr.exp_lt nm 0 = fun _ => 1 := by
    funext i; unfold GTR.exp_lt; rw [mul_zero, zero_mul, hexp]
  unfold GTR.prob_t
  rw [if_neg (lt_irrefl 0), if_neg (fun h => h rfl), hE]
  simp only [Bool.false_eq_true, if_false]
  congr 1
  revert hp
  induction p with
  | nil => intro _; simp
  | cons r tl ih =>
    intro hp
    simp only [List.map_cons, List.zip_cons_cons, List.prod_cons]
    have h1 : (∑ i, Matrix.vecMul r gtr.v i * (1 : ℚ) * Matrix.mulVec gtr.v_inv r i) = 1 := by
      have := dot_rotations gtr.v gtr.v_inv hv r
      simp only [mul_one]
      rw [this]
      exact OneHot.sum_sq (hp r (List.mem_cons_self r tl))
    simp only [h1]
    rw [ih (fun s hs => hp s (List.mem_cons_of_mem _ hs))]
    norm_num

/-- C2 witness: the Jukes-Cantor model with the exact eigendecomposition
`jcEig` and the one-hot profile [oneHotRow] give probability exactly 1 at
t = 0. -/
theorem C2_prob_t_self_zero_one_hot_witness :
    nmOne.exp 0 = 1 ∧ jcModel.EigOk ∧ (∀ r ∈ [oneHotRow], OneHot r) ∧
    jcModel.prob_t nmOne cfg0 [oneHotRow] [oneHotRow] 0 false false = Except.ok 1 :=
  ⟨by norm_num [nmOne], jcModel_EigOk,
    fun r hr => by rw [List.mem_singleton.mp hr]; exact oneHotRow_oneHot,
    C2_prob_t_self_zero_one_hot jcModel nmOne cfg0 [oneHotRow] (by norm_num [nmOne])
      jcModel_EigOk fun r hr => by rw [List.mem_singleton.mp hr]; exact oneHotRow_oneHot⟩

/-- C2 counterexample: the factory-constructed Jukes-Cantor model and the
valid (uniform-distribution) one-site profile give
`prob_t(p, p, 0) = 1/4`, not 1, refuting the claim for general valid
profiles. -/
theorem C2_uniform_profile_counterexample :
    GTR.standard "Jukes-Cantor" { alphabet := none, mu := none } rndZero jcEig
        = Except.ok jcModel ∧
    jcModel.EigOk ∧
    (∑ i, uniformRow i) = 1 ∧
    jcModel.prob_t nmOne cfg0 [uniformRow] [uniformRow] 0 false false
        = Except.ok (1 / 4) ∧
    (1 / 4 : ℚ) ≠ 1 := by
  refine ⟨?_, jcModel_EigOk, ?_, ?_, by norm_num⟩
  · rw [standard_jc _ rfl]
    rfl
  · norm_num [uniformRow, Fin.sum_univ_four]
  · have hE : jcModel.exp_lt nmOne 0 = fun _ => 1 := by
      funext i
      unfold GTR.exp_lt
      rw [mul_zero, zero_mul]
      norm_num [nmOne]
    unfold GTR.prob_t
    rw [if_neg (lt_irrefl 0), if_neg (fun h => h rfl), hE]
    simp only [Bool.false_eq_true, if_false, List.map_cons, List.map_nil,
      List.zip_cons_cons, List.zip_nil_right, List.prod_cons, List.prod_nil]
    have h1 : (∑ i, Matrix.vecMul uniformRow jcModel.v i * (1 : ℚ)
        * Matrix.mulVec jcModel.v_inv uniformRow i) = 1 / 4 := by
      simp only [mul_one]
      rw [dot_rotations jcModel.v jcModel.v_inv jcModel_EigOk uniformRow]
      norm_num [uniformRow, Fin.sum_univ_four]
    rw [h1]
    rw [if_neg (by norm_num : ¬ (1 / 4 : ℚ) < 0), mul_one]

/-- C3: the claim says the failed optimization returns the sentinel -1.0.
In the source the failure branch (argmin above 90 percent of the maximum
branch length, or no convergence) first evaluates `verbose > 0` where
`verbose` is an undefined global, raising NameError, so -1.0 is
unreachable; the success branch does return the optimizer's argmin. -/
theorem C3_optimal_t_failure_raises_nameError :
    (emptyGTR 4 "nuc").optimal_t cfg0 [oneHotRow] [uniformRow]
        { x := 0, success := false } = Except.error (PyError.nameError "verbose") ∧
    (emptyGTR 4 "nuc").optimal_t cfg0 [oneHotRow] [uniformRow]
        { x := 1 / 2, success := true } = Except.ok (1 / 2) := by
  constructor
  · unfold GTR.optimal_t
    rw [if_pos (Or.inr rfl)]
  · unfold GTR.optimal_t
    rw [if_neg]
    norm_num [cfg0]

/-- C4: the claim says `prob_t` with t < 0 returns 0 (plain) or a large
negative value (log) without error.  The plain branch does return 0, but
the log branch evaluates `-BIG_NUMBER` where `BIG_NUMBER` is an undefined
name (the module imports `config as ttconf` only), raising NameError. -/
theorem C4_prob_t_negative_time_log_raises :
    (emptyGTR 4 "nuc").prob_t nmOne cfg0 [oneHotRow] [uniformRow] (-1) false true
        = Except.error (PyError.nameError "BIG_NUMBER") ∧
    (emptyGTR 4 "nuc").prob_t nmOne cfg0 [oneHotRow] [uniformRow] (-1) false false
        = Except.ok 0 := by
  constructor <;>
    · unfold GTR.prob_t
      rw [if_pos (by norm_num : (-1 : ℚ) < 0)]
      rfl

/-- C5: for every t at least 0, `prob_t` on parent and child profiles with
different site counts fails with the dimension-mismatch ValueError
(whatever the rotation and log flags); the embedding's `prob_t` returns
only a value and touches no model field, matching the source method, which
never assigns model state. -/
theorem C5_length_mismatch_valueError {a : ℕ} (gtr : GTR a) (nm : Numerics)
    (cfg : Config) (p ch : List (Fin a → ℚ)) (t : ℚ) (rotated return_log : Bool)
    (ht : 0 ≤ t) (hlen : p.length ≠ ch.length) :
    gtr.prob_t nm cfg p ch t rotated return_log
      = Except.error (PyError.valueError "Sequence lengths do not match!") := by
  unfold GTR.prob_t
  rw [if_neg (not_lt.mpr ht), if_pos hlen]

/-- C5 witness: a one-site parent against an empty child at t = 1. -/
theorem C5_length_mismatch_valueError_witness :
    (0 : ℚ) ≤ 1 ∧
    ([oneHotRow] : List (Fin 4 → ℚ)).length ≠ ([] : List (Fin 4 → ℚ)).length ∧
    (emptyGTR 4 "nuc").prob_t nmOne cfg0 [oneHotRow] [] 1 false false
      = Except.error (PyError.valueError "Sequence lengths do not match!") :=
  ⟨by norm_num, by simp,
    C5_length_mismatch_valueError (emptyGTR 4 "nuc") nmOne cfg0 [oneHotRow] [] 1
      false false (by norm_num) (by simp)⟩

/-- C6 (amended): direct construction with an unrecognized alphabet
identifier fails with the spec's ConfigurationError (AttributeError in the
source) and builds no model, and the factory with an unrecognized preset
name and no alphabet option fails with the spec's ConfigurationError
(NotImplementedError); with the alphabet option supplied the factory
instead fails with UnboundLocalError before examining the preset (see the
counterexample). -/
theorem C6_unknown_alphabet_and_model_errors (s : String)
    (halpha : alphabets s = none) (model : String) (kwmu : Option ℚ)
    (rnd : RandomDraws) (eo : EigOutput 4)
    (h1 : model ≠ "Jukes-Cantor") (h2 : model ≠ "random") :
    GTR.init s = Except.error (PyError.attributeError "Unknown alphabet type specified") ∧
    GTR.standard model { alphabet := none, mu := kwmu } rnd eo
      = Except.error
          (PyError.notImplementedError "The specified evolutionary model is unsupported!") := by
  constructor
  · unfold GTR.init
    rw [halpha]
  · unfold GTR.standard
    simp only [Option.isSome_none, Bool.false_eq_true, if_false, if_neg h1, if_neg h2]

/-- C6 counterexample: requesting the unknown preset "bogus" while also
supplying the (known) alphabet option fails with UnboundLocalError, not
with the unsupported-model error, because gtr.py line 39 reads the local
`alphabet` before its first assignment. -/
theorem C6_alphabet_kwarg_counterexample :
    GTR.standard "bogus" { alphabet := some "nuc", mu := none } rndZero jcEig
      = Except.error (PyError.unboundLocalError "alphabet") ∧
    PyError.unboundLocalError "alphabet"
      ≠ PyError.notImplementedError "The specified evolutionary model is unsupported!" :=
  ⟨rfl, by simp⟩

/-- C6 witness: the unrecognized alphabet "fancy" and the unrecognized
preset "HKY" (without the alphabet option). -/
theorem C6_unknown_alphabet_and_model_errors_witness :
    alphabets "fancy" = none ∧ "HKY" ≠ "Jukes-Cantor" ∧ "HKY" ≠ "random" ∧
    (GTR.init "fancy"
        = Except.error (PyError.attributeError "Unknown alphabet type specified") ∧
      GTR.standard "HKY" { alphabet := none, mu := none } rndZero jcEig
        = Except.error
            (PyError.notImplementedError "The specified evolutionary model is unsupported!")) :=
  ⟨rfl, by simp, by simp,
    C6_unknown_alphabet_and_model_errors "fancy" rfl "HKY" none rndZero jcEig
      (by simp) (by simp)⟩

/-- C7: the claim says a factory call supplying a known alphabet identifier
raises no error and builds the model over that alphabet.  Because gtr.py
line 39 reads the local `alphabet` before assignment, every call supplying
the option raises UnboundLocalError; only without the option does the mu
option reach the model's rate field. -/
theorem C7_alphabet_option_unboundLocalError :
    GTR.standard "Jukes-Cantor" { alphabet := some "nuc", mu := some 2 } rndZero jcEig
      = Except.error (PyError.unboundLocalError "alphabet") ∧
    (GTR.standard "Jukes-Cantor" { alphabet := none, mu := some 2 } rndZero jcEig).map GTR.mu
      = Except.ok 2 := by
  constructor
  · rfl
  · rw [standard_jc _ rfl]
    rfl

/-- C8: in the uniform (Jukes-Cantor) model over an alphabet of size a,
every off-diagonal entry of W is 1, every diagonal entry of W is -(a-1),
and every diagonal entry of Pi is exactly 1/a; and the factory's
Jukes-Cantor preset (alphabet size 4) returns a model carrying exactly
these matrices, validation leaving them unchanged. -/
theorem C8_jukes_cantor_matrices (a : ℕ) (i j : Fin a) (hij : i ≠ j)
    (kwargs : Kwargs) (halpha : kwargs.alphabet = none)
    (rnd : RandomDraws) (eo : EigOutput 4) :
    jcW a i j = 1 ∧ jcW a i i = -((a : ℚ) - 1) ∧ jcPi a i i = 1 / (a : ℚ) ∧
    (GTR.standard "Jukes-Cantor" kwargs rnd eo).map GTR.W = Except.ok (jcW 4) ∧
    (GTR.standard "Jukes-Cantor" kwargs rnd eo).map GTR.Pi = Except.ok (jcPi 4) := by
  refine ⟨?_, ?_, ?_, ?_, ?_⟩
  · rw [jcW_apply, if_neg hij]
  · rw [jcW_apply, if_pos rfl]
  · unfold jcPi
    rw [if_pos rfl]
  · rw [standard_jc kwargs halpha]
    rfl
  · rw [standard_jc kwargs halpha]
    rfl

/-- C8 witness: alphabet size 4, entries (0,1) and (0,0), the factory call
with no options and the concrete eigensolver output. -/
theorem C8_jukes_cantor_matrices_witness :
    jcW 4 0 1 = 1 ∧ jcW 4 0 0 = -((4 : ℚ) - 1) ∧ jcPi 4 0 0 = 1 / (4 : ℚ) ∧
    (GTR.standard "Jukes-Cantor" { alphabet := none, mu := none } rndZero jcEig).map GTR.W
      = Except.ok (jcW 4) ∧
    (GTR.standard "Jukes-Cantor" { alphabet := none, mu := none } rndZero jcEig).map GTR.Pi
      = Except.ok (jcPi 4) :=
  C8_jukes_cantor_matrices 4 0 1 (by decide) { alphabet := none, mu := none } rfl
    rndZero jcEig

/-- C9: `propagate_profile` at t = 0 with default flags returns the input
profile exactly (in the exact rational embedding), for every model whose
eigenvector matrix times its stored inverse is the identity and any
exponential with exp 0 = 1. -/
theorem C9_propagate_identity_at_zero {a : ℕ} (gtr : GTR a) (nm : Numerics)
    (profile : List (Fin a → ℚ)) (hexp : nm.exp 0 = 1) (hv : gtr.EigOk) :
    gtr.propagate_profile nm profile 0 false false = profile := by
  have hE : gtr.exp_lt nm 0 = fun _ => 1 := by
    funext i; unfold GTR.exp_lt; rw [mul_zero, zero_mul, hexp]
  unfold GTR.propagate_profile
  rw [hE]
  simp only [Bool.false_eq_true, if_false, List.map_map]
  have hid : ((fun r => Matrix.mulVec gtr.v fun j => (1 : ℚ) * r j) ∘
      fun r => Matrix.mulVec gtr.v_inv r) = id := by
    funext r
    have h1 : (fun j => (1 : ℚ) * Matrix.mulVec gtr.v_inv r j)
        = Matrix.mulVec gtr.v_inv r := by funext j; rw [one_mul]
    show Matrix.mulVec gtr.v (fun j => (1 : ℚ) * Matrix.mulVec gtr.v_inv r j) = r
    rw [h1, Matrix.mulVec_mulVec, hv, Matrix.one_mulVec]
  rw [hid, List.map_id]

/-- C9 witness: propagating the uniform one-site profile by zero time
through the Jukes-Cantor model returns it unchanged. -/
theorem C9_propagate_identity_at_zero_witness :
    nmOne.exp 0 = 1 ∧ jcModel.EigOk ∧
    jcModel.propagate_profile nmOne [uniformRow] 0 false false = [uniformRow] :=
  ⟨by norm_num [nmOne], jcModel_EigOk,
    C9_propagate_identity_at_zero jcModel nmOne [uniformRow] (by norm_num [nmOne])
      jcModel_EigOk⟩

/-- C10: the negative-time check precedes the site-count check: for every
t < 0 and any two profiles (matched or mismatched site counts), `prob_t`
returns the t < 0 result (0 in plain form) and never raises the
dimension-mismatch error, under either log flag. -/
theorem C10_negative_time_precedes_length_check {a : ℕ} (gtr : GTR a)
    (nm : Numerics) (cfg : Config) (p ch : List (Fin a → ℚ)) (t : ℚ)
    (rotated : Bool) (ht : t < 0) :
    gtr.prob_t nm cfg p ch t rotated false = Except.ok 0 ∧
    ∀ return_log : Bool, gtr.prob_t nm cfg p ch t rotated return_log
      ≠ Except.error (PyError.valueError "Sequence lengths do not match!") := by
  constructor
  · unfold GTR.prob_t
    rw [if_pos ht]
    rfl
  · intro rl
    unfold GTR.prob_t
    rw [if_pos ht]
    cases rl <;> simp

/-- C10 witness: t = -1 with a one-site parent and an empty child (site
counts differ) returns 0 in plain form and never the dimension error. -/
theorem C10_negative_time_precedes_length_check_witness :
    (-1 : ℚ) < 0 ∧
    ((emptyGTR 4 "nuc").prob_t nmOne cfg0 [oneHotRow] [] (-1) false false = Except.ok 0 ∧
      ∀ return_log : Bool,
        (emptyGTR 4 "nuc").prob_t nmOne cfg0 [oneHotRow] [] (-1) false return_log
          ≠ Except.error (PyError.valueError "Sequence lengths do not match!")) :=
  ⟨by norm_num,
    C10_negative_time_precedes_length_check (emptyGTR 4 "nuc") nmOne cfg0
      [oneHotRow] [] (-1) false (by norm_num)⟩
